import Mathlib

/-!
Verification development for the AgenticBlogWriter repository.

The repository has two source files:
  * `generate_blog.py` — the pipeline function `generate_blog(topic)`: it checks the
    `OPENAI_API_KEY` credential, selects a search tool (`SerperDevTool` or
    `DuckDuckGoSearchRun`) based on `SERPER_API_KEY`, runs a three-task CrewAI kickoff
    (research, write, edit), extracts an embedded JSON object from the editor output
    (first `\x7b` to last `\x7d`, `json.loads`, per-field truthiness fallback), and
    conditionally runs a second image-generation kickoff whose raw output is stripped
    of whitespace and quotes and kept only when it starts with "http".
  * `app.py` — a FastAPI endpoint mapping `BlogGenerationError` and `EnvironmentError`
    to distinct HTTP 500 details.

Shallow-embedding conventions used below:
  * The external CrewAI engine is an external collaborator; each of the two
    `Crew(...).kickoff()` calls is modelled by a parameter of type
    `Except String String`: either an exception (carrying its `str(e)` message) or the
    raw string output of the final task (`crew_result.raw`).  The image crew's
    outcome parameter is consulted only when the code actually invokes it; the record
    `RunOutcome.calls` logs which kickoff calls executed.
  * Environment variables are `Option String`; Python's `if not key:` treats both an
    unset variable (`None`) and an empty string as missing (`envVarMissing`).
  * Python `json.loads` is modelled by `json_loads`: a JSON value type and a
    recursive-descent parser following the grammar of Python's `json` decoder in
    strict mode (objects, arrays, strings with escapes, numbers, `true`/`false`/
    `null`, plus the `NaN`/`Infinity`/`-Infinity` constants Python accepts; raw
    control characters below 0x20 are rejected inside strings; whitespace is
    ` \t\n\r`; trailing non-whitespace after the value is an error, matching the
    "Extra data" check).  Python's dynamic values are represented by `Json`;
    a Python `str` embeds as `Json.str`.
  * Python truthiness of a parsed value is `Json.truthy` (empty string/list/dict,
    zero numbers, `null` and `False` are falsy).  `dict.get` with duplicate JSON
    keys keeps the last occurrence (`lookupLast`).
  * `str.strip` variants are modelled over the code-point list (`pyStrip`).
-/

/-- JSON values as produced by Python's `json.loads`.  Numbers keep their source
lexeme: the claims under verification never depend on numeric magnitude, only on
zero-ness for truthiness, which is recoverable from the lexeme's digits. -/
inductive Json where
  | null : Json
  | bool : Bool → Json
  | num : String → Json
  | str : String → Json
  | arr : List Json → Json
  | obj : List (String × Json) → Json

/-- JSON whitespace accepted between tokens by Python's decoder (` \t\n\r`). -/
def jsonWs (c : Char) : Bool :=
  c = ' ' || c = '\t' || c = '\n' || c = '\r'

/-- Skip JSON whitespace. -/
def skipWs (cs : List Char) : List Char :=
  cs.dropWhile jsonWs

/-- Hexadecimal digit test for `\uXXXX` escapes. -/
def isHexDig (c : Char) : Bool :=
  c.isDigit || ('a' ≤ c && c ≤ 'f') || ('A' ≤ c && c ≤ 'F')

/-- Value of a hexadecimal digit. -/
def hexVal (c : Char) : Nat :=
  if c.isDigit then c.toNat - 48
  else if 'a' ≤ c && c ≤ 'f' then c.toNat - 87
  else if 'A' ≤ c && c ≤ 'F' then c.toNat - 55
  else 0

/-- Single-character JSON escapes. -/
def escChar (e : Char) : Option Char :=
  if e = '"' then some '"'
  else if e = '\\' then some '\\'
  else if e = '/' then some '/'
  else if e = 'b' then some '\x08'
  else if e = 'f' then some '\x0c'
  else if e = 'n' then some '\n'
  else if e = 'r' then some '\r'
  else if e = 't' then some '\t'
  else none

/-- Parse the body of a JSON string after the opening quote; returns the decoded
characters and the input remaining after the closing quote.  Strict mode: raw
control characters below 0x20 are rejected, `\uXXXX` requires four hex digits. -/
def parseStringChars (cs : List Char) : Option (List Char × List Char) :=
  match cs with
  | [] => none
  | c :: rest =>
    if c = '"' then some ([], rest)
    else if c = '\\' then
      match rest with
      | [] => none
      | e :: rest2 =>
        if e = 'u' then
          match rest2 with
          | h1 :: h2 :: h3 :: h4 :: rest3 =>
            if isHexDig h1 && isHexDig h2 && isHexDig h3 && isHexDig h4 then
              (parseStringChars rest3).map
                (fun p => (Char.ofNat (hexVal h1 * 4096 + hexVal h2 * 256 + hexVal h3 * 16 + hexVal h4) :: p.1, p.2))
            else none
          | _ => none
        else
          match escChar e with
          | some ec => (parseStringChars rest2).map (fun p => (ec :: p.1, p.2))
          | none => none
    else if c.toNat < 32 then none
    else (parseStringChars rest).map (fun p => (c :: p.1, p.2))

/-- Optional fraction and exponent after the integer part of a JSON number,
following the regex `(\.\d+)?([eE][-+]?\d+)?` of Python's decoder. -/
def numTail (lex : List Char) (cs : List Char) : Option (Json × List Char) :=
  let fr :=
    match cs with
    | '.' :: r =>
      let ds := r.takeWhile Char.isDigit
      if ds.isEmpty then (([] : List Char), cs) else ('.' :: ds, r.dropWhile Char.isDigit)
    | _ => ([], cs)
  let fracChars := fr.1
  let cs2 := fr.2
  let ex :=
    match cs2 with
    | e :: r =>
      if e = 'e' || e = 'E' then
        let sr :=
          match r with
          | '+' :: rr => ((['+'] : List Char), rr)
          | '-' :: rr => (['-'], rr)
          | _ => ([], r)
        let ds := sr.2.takeWhile Char.isDigit
        if ds.isEmpty then (([] : List Char), cs2)
        else (e :: sr.1 ++ ds, sr.2.dropWhile Char.isDigit)
      else ([], cs2)
    | _ => ([], cs2)
  some (Json.num (String.mk (lex ++ fracChars ++ ex.1)), ex.2)

/-- JSON number parsing following the regex `(-?(?:0|[1-9]\d*))(\.\d+)?([eE][-+]?\d+)?`
used by Python's decoder: the longest match is consumed, the rest is left for the
delimiter checks of the caller. -/
def parseNumber (cs : List Char) : Option (Json × List Char) :=
  let sg :=
    match cs with
    | '-' :: r => ((['-'] : List Char), r)
    | _ => ([], cs)
  match sg.2 with
  | [] => none
  | d :: rest1 =>
    if d = '0' then numTail (sg.1 ++ ['0']) rest1
    else if d.isDigit then
      numTail (sg.1 ++ d :: rest1.takeWhile Char.isDigit) (rest1.dropWhile Char.isDigit)
    else none

/-- Parsing mode: a plain value, the member list of an object (after `\x7b`, first
key expected), or the element list of an array. -/
inductive PMode where
  | value : PMode
  | members : List (String × Json) → PMode
  | elems : List Json → PMode

/-- Recursive-descent core of the `json.loads` model.  The fuel argument only bounds
the nesting recursion (it is always called with more fuel than the input length, so
it never runs out on inputs Python would accept within its recursion limit). -/
def parseStep : Nat → PMode → List Char → Option (Json × List Char)
  | 0, _, _ => none
  | _ + 1, PMode.value, [] => none
  | fuel + 1, PMode.value, c :: rest =>
    if c = '\x7b' then
      match skipWs rest with
      | [] => none
      | c1 :: r1 =>
        if c1 = '\x7d' then some (Json.obj [], r1)
        else parseStep fuel (PMode.members []) (c1 :: r1)
    else if c = '[' then
      match skipWs rest with
      | [] => none
      | c1 :: r1 =>
        if c1 = ']' then some (Json.arr [], r1)
        else parseStep fuel (PMode.elems []) (c1 :: r1)
    else if c = '"' then
      match parseStringChars rest with
      | some (s, r) => some (Json.str (String.mk s), r)
      | none => none
    else if c = 't' then
      match rest with
      | 'r' :: 'u' :: 'e' :: r => some (Json.bool true, r)
      | _ => none
    else if c = 'f' then
      match rest with
      | 'a' :: 'l' :: 's' :: 'e' :: r => some (Json.bool false, r)
      | _ => none
    else if c = 'n' then
      match rest with
      | 'u' :: 'l' :: 'l' :: r => some (Json.null, r)
      | _ => none
    else if c = 'N' then
      match rest with
      | 'a' :: 'N' :: r => some (Json.num "NaN", r)
      | _ => none
    else if c = 'I' then
      match rest with
      | 'n' :: 'f' :: 'i' :: 'n' :: 'i' :: 't' :: 'y' :: r => some (Json.num "Infinity", r)
      | _ => none
    else if c = '-' then
      match rest with
      | 'I' :: 'n' :: 'f' :: 'i' :: 'n' :: 'i' :: 't' :: 'y' :: r => some (Json.num "-Infinity", r)
      | _ => parseNumber (c :: rest)
    else parseNumber (c :: rest)
  | _ + 1, PMode.members _, [] => none
  | fuel + 1, PMode.members acc, c :: rest =>
    if c = '"' then
      match parseStringChars rest with
      | none => none
      | some (key, r1) =>
        match skipWs r1 with
        | [] => none
        | c2 :: r2 =>
          if c2 = ':' then
            match parseStep fuel PMode.value (skipWs r2) with
            | none => none
            | some (v, r3) =>
              match skipWs r3 with
              | [] => none
              | c4 :: r4 =>
                if c4 = ',' then
                  parseStep fuel (PMode.members (acc ++ [(String.mk key, v)])) (skipWs r4)
                else if c4 = '\x7d' then some (Json.obj (acc ++ [(String.mk key, v)]), r4)
                else none
          else none
    else none
  | fuel + 1, PMode.elems acc, cs =>
    match parseStep fuel PMode.value cs with
    | none => none
    | some (v, r) =>
      match skipWs r with
      | [] => none
      | c2 :: r2 =>
        if c2 = ',' then parseStep fuel (PMode.elems (acc ++ [v])) (skipWs r2)
        else if c2 = ']' then some (Json.arr (acc ++ [v]), r2)
        else none

/-- Model of Python `json.loads`: parse one JSON value, allow surrounding
whitespace, and reject trailing data. -/
def json_loads (s : String) : Option Json :=
  match parseStep (s.data.length + 4) PMode.value (skipWs s.data) with
  | some (v, rest) => if skipWs rest = [] then some v else none
  | none => none

/-- Zero test on a number lexeme: a parsed number is falsy in Python exactly when
its value is zero, i.e. when every mantissa digit is `0` (the exponent is
irrelevant; `NaN`/`Infinity` have no mantissa digits and are truthy).  A float
that underflows to `0.0` (e.g. `1e-400`) is not treated as zero here; no claim
depends on that floating-point edge. -/
def numIsZero (lex : String) : Bool :=
  let mantissa := lex.data.takeWhile (fun c => c ≠ 'e' && c ≠ 'E')
  mantissa.any Char.isDigit && (mantissa.filter Char.isDigit).all (· = '0')

/-- Python truthiness of a parsed JSON value (`if parsed_title:` in the source). -/
def Json.truthy : Json → Bool
  | Json.null => false
  | Json.bool b => b
  | Json.num lex => !numIsZero lex
  | Json.str s => !s.data.isEmpty
  | Json.arr xs => !xs.isEmpty
  | Json.obj kvs => !kvs.isEmpty

/-- `dict.get`: Python builds the object dict left to right, so a duplicate key
keeps its last occurrence. -/
def lookupLast (kvs : List (String × Json)) (k : String) : Option Json :=
  match kvs with
  | [] => none
  | (k1, v) :: rest =>
    match lookupLast rest k with
    | some v2 => some v2
    | none => if k1 = k then some v else none

/-- Python `str.find(c)`: index of the first occurrence (`none` models `-1`). -/
def findIdxC (c : Char) : List Char → Option Nat
  | [] => none
  | a :: l => if a = c then some 0 else (findIdxC c l).map (· + 1)

/-- Python `str.rfind(c)`: index of the last occurrence (`none` models `-1`). -/
def rfindIdxC (c : Char) (cs : List Char) : Option Nat :=
  (findIdxC c cs.reverse).map (fun i => cs.length - 1 - i)

/-- `final_title` default: `f"Blog on \x7btopic\x7d"`. -/
def defaultTitle (topic : String) : String := "Blog on " ++ topic

/-- `final_body` default: the fixed parse-error placeholder. -/
def defaultBody : String := "Error: Could not parse editor output."

/-- One field of the parsed editor object: `edited_output.get(k)` followed by the
truthiness check `if parsed_x:` — an absent key (`None`) and a falsy value both
keep the default. -/
def jsonField (members : List (String × Json)) (k : String) (dflt : String) : Json :=
  match lookupLast members k with
  | some v => if v.truthy then v else Json.str dflt
  | none => Json.str dflt

/-- The JSON-extraction block of `generate_blog` (source lines 209–255): locate the
first `\x7b` and the last `\x7d`, slice, `json.loads`, and recover each field
independently; every parsing failure (no bracket pair, malformed JSON, non-dict
result — the `except` clause) keeps the defaults.  Returns
(`final_title`, `final_body`). -/
def processEditorOutput (topic raw : String) : Json × Json :=
  match findIdxC '\x7b' raw.data, rfindIdxC '\x7d' raw.data with
  | some s, some e =>
    if s < e then
      match json_loads (String.mk ((raw.data.drop s).take (e + 1 - s))) with
      | some (Json.obj members) =>
        (jsonField members "title" (defaultTitle topic), jsonField members "body" defaultBody)
      | _ => (Json.str (defaultTitle topic), Json.str defaultBody)
    else (Json.str (defaultTitle topic), Json.str defaultBody)
  | _, _ => (Json.str (defaultTitle topic), Json.str defaultBody)

/-- Python whitespace stripped by `str.strip()` (ASCII part; the claims use only
these characters). -/
def pySpace (c : Char) : Bool :=
  c = ' ' || c = '\t' || c = '\n' || c = '\r' || c = '\x0b' || c = '\x0c'

/-- Python `str.strip(chars)`: remove all leading and trailing characters
satisfying the predicate. -/
def pyStrip (p : Char → Bool) (s : String) : String :=
  String.mk (((s.data.dropWhile p).reverse.dropWhile p).reverse)

/-- Boolean prefix test on character lists. -/
def prefixOfB : List Char → List Char → Bool
  | [], _ => true
  | _ :: _, [] => false
  | a :: l, b :: m => a = b && prefixOfB l m

/-- Python `str.startswith(pre)`. -/
def pyStartsWith (s pre : String) : Bool := prefixOfB pre.data s.data

/-- URL extraction from the image stage's raw output (source lines 289–295):
`raw_out.strip().strip('\x22').strip(\x27)`, then keep the candidate only if it
starts with "http". -/
def extractImageUrl (raw_out : String) : Option String :=
  let img_url_candidate := pyStrip (· = '\x27') (pyStrip (· = '"') (pyStrip pySpace raw_out))
  if pyStartsWith img_url_candidate "http" then some img_url_candidate else none

/-- Python equality between a dynamically typed value and a `str` (the
`final_title != f"Blog on \x7btopic\x7d"` test): only a `str` can equal a `str`. -/
def pyEqStr (j : Json) (s : String) : Bool :=
  match j with
  | Json.str t => t == s
  | _ => false

/-- Process environment: the two credentials read by `generate_blog`. -/
structure Env where
  openai_api_key : Option String
  serper_api_key : Option String

/-- `if not key:` — unset (`None` from `os.getenv`) or empty string. -/
def envVarMissing : Option String → Bool
  | none => true
  | some s => s.data.isEmpty

/-- The search tool chosen for the researcher agent. -/
inductive SearchTool where
  | serperDev : String → SearchTool
  | duckDuckGo : SearchTool

/-- External-kickoff calls that `generate_blog` can make, recorded in order. -/
inductive StageCall where
  | textKickoff : StageCall
  | imageKickoff : StageCall
deriving DecidableEq

/-- Behaviour of the external CrewAI engine for one request: the outcome of the
three-task text kickoff and (if invoked) of the image kickoff.  `Except.error`
carries `str(e)` of the raised exception; `Except.ok` carries the raw string
output of the final task. -/
structure CrewBehavior where
  kickoff : Except String String
  imageKickoff : Except String String

/-- Exceptions that can escape `generate_blog`. -/
inductive PipelineError where
  | environmentError : String → PipelineError
  | blogGenerationError : String → PipelineError

/-- The dictionary returned by `generate_blog`, which always carries exactly the
keys `title`, `body_markdown` and `image_url`.  `title` and `body_markdown` hold
dynamically typed Python values (`Json`); `image_url` is a string or `None`. -/
structure BlogResult where
  title : Json
  body_markdown : Json
  image_url : Option String

/-- Result of one `generate_blog` run together with the observable interactions:
which kickoff calls executed and which search tool was constructed (`none` when
the credential check aborted before tool selection). -/
structure RunOutcome where
  result : Except PipelineError BlogResult
  searchTool : Option SearchTool
  calls : List StageCall

/-- Model of `generate_blog` (generate_blog.py, lines 31–316) with its external
interactions made explicit.  Mirrors the source: credential check, search-tool
selection, text kickoff (exceptions wrapped once at the outer level as
`BlogGenerationError(f"CrewAI pipeline failed: \x7be\x7d")`), JSON extraction with
per-field fallback, and the conditional image kickoff whose own failures are
absorbed into a `None` image URL.  The source guard is
`if final_title != f"Blog on \x7btopic\x7d"` (run the image stage); the branches
are flipped accordingly here. -/
def generate_blogRun (topic : String) (env : Env) (crew : CrewBehavior) : RunOutcome :=
  if envVarMissing env.openai_api_key then
    { result := Except.error (PipelineError.environmentError "OpenAI API key not found in environment variables.")
      searchTool := none
      calls := [] }
  else
    let search_tool :=
      if envVarMissing env.serper_api_key then SearchTool.duckDuckGo
      else SearchTool.serperDev (env.serper_api_key.getD "")
    match crew.kickoff with
    | Except.error e =>
      { result := Except.error (PipelineError.blogGenerationError ("CrewAI pipeline failed: " ++ e))
        searchTool := some search_tool
        calls := [StageCall.textKickoff] }
    | Except.ok raw =>
      let fb := processEditorOutput topic raw
      if pyEqStr fb.1 (defaultTitle topic) then
        { result := Except.ok { title := fb.1, body_markdown := fb.2, image_url := none }
          searchTool := some search_tool
          calls := [StageCall.textKickoff] }
      else
        match crew.imageKickoff with
        | Except.error _ =>
          { result := Except.ok { title := fb.1, body_markdown := fb.2, image_url := none }
            searchTool := some search_tool
            calls := [StageCall.textKickoff, StageCall.imageKickoff] }
        | Except.ok raw_out =>
          { result := Except.ok { title := fb.1, body_markdown := fb.2, image_url := extractImageUrl raw_out }
            searchTool := some search_tool
            calls := [StageCall.textKickoff, StageCall.imageKickoff] }

/-- The value returned (or exception raised) by `generate_blog`. -/
def generate_blog (topic : String) (env : Env) (crew : CrewBehavior) :
    Except PipelineError BlogResult :=
  (generate_blogRun topic env crew).result

/-- The `BlogResponse` pydantic model of app.py. -/
structure BlogResponse where
  title : String
  body_markdown : String
  image_url : Option String

/-- Outcome of the HTTP endpoint: a 200 with a response body, or an
`HTTPException(status_code, detail)`. -/
inductive EndpointResult where
  | ok : BlogResponse → EndpointResult
  | httpError : Nat → String → EndpointResult

/-- Pydantic validation of a `str` field given a dynamically typed value
(pydantic v2 does not coerce non-strings to `str`). -/
def pydanticStr : Json → Option String
  | Json.str s => some s
  | _ => none

/-- Model of the `POST /api/generate-blog` handler (app.py, lines 60–89):
`generate_blog` exceptions are mapped to 500s — `BlogGenerationError` with detail
`f"Failed to generate blog: \x7bbge\x7d"`, `EnvironmentError` with detail
`f"Server configuration error: \x7bee\x7d"` — and any other exception (e.g. a
pydantic validation failure on a non-string field) to a generic 500.  On success
the result dictionary always carries all three keys, so the `.get` defaults of
the source are never consulted. -/
def generate_blog_endpoint (topic : String) (env : Env) (crew : CrewBehavior) : EndpointResult :=
  match generate_blog topic env crew with
  | Except.error (PipelineError.blogGenerationError msg) =>
    EndpointResult.httpError 500 ("Failed to generate blog: " ++ msg)
  | Except.error (PipelineError.environmentError msg) =>
    EndpointResult.httpError 500 ("Server configuration error: " ++ msg)
  | Except.ok r =>
    match pydanticStr r.title, pydanticStr r.body_markdown with
    | some t, some b => EndpointResult.ok { title := t, body_markdown := b, image_url := r.image_url }
    | _, _ => EndpointResult.httpError 500 "An unexpected server error occurred: validation error"

/-! ### Rendered editor outputs

To state the claims about well-formed embedded JSON for arbitrary titles and
bodies, we render a JSON object literal as a character list and prove that the
parser model accepts it.  `plainChar` characters are those that may appear
verbatim inside a JSON string literal. -/

/-- A character that may appear verbatim inside a JSON string literal. -/
def plainChar (c : Char) : Prop := c ≠ '"' ∧ c ≠ '\\' ∧ ¬ c.toNat < 32

instance (c : Char) : Decidable (plainChar c) := by
  unfold plainChar
  infer_instance

/-- A rendered JSON string literal. -/
def strLit (s : String) : List Char := '"' :: (s.data ++ ['"'])

/-- The rendered JSON `null` literal. -/
def nullLit : List Char := ['n', 'u', 'l', 'l']

/-- A rendered one-member JSON object literal. -/
def objOneChars (k : String) (v : List Char) : List Char :=
  '\x7b' :: '"' :: (k.data ++ '"' :: ':' :: (v ++ ['\x7d']))

/-- A rendered two-member JSON object literal. -/
def objTwoChars (k1 : String) (v1 : List Char) (k2 : String) (v2 : List Char) : List Char :=
  '\x7b' :: '"' :: (k1.data ++ '"' :: ':' :: (v1 ++ ',' :: '"' :: (k2.data ++ '"' :: ':' :: (v2 ++ ['\x7d']))))

/-- The search tool constructed after the credential check. -/
def chosenSearchTool (env : Env) : SearchTool :=
  if envVarMissing env.serper_api_key then SearchTool.duckDuckGo
  else SearchTool.serperDev (env.serper_api_key.getD "")

/-! ### Sanity examples (concrete evaluation of the model) -/

example : json_loads "\x7b\"title\": \"X\", \"body\": \"Y\"\x7d" =
    some (Json.obj [("title", Json.str "X"), ("body", Json.str "Y")]) := by rfl

example : json_loads "\x7b\"body\": \"Y\"\x7d" = some (Json.obj [("body", Json.str "Y")]) := by rfl

example : json_loads "not json" = none := by rfl

example : json_loads " \x7b\"a\": [1, true, null]\x7d " =
    some (Json.obj [("a", Json.arr [Json.num "1", Json.bool true, Json.null])]) := by rfl

example : json_loads "\x7b\"a\": 1\x7d trailing" = none := by rfl

example : extractImageUrl " \"https://img.example/x.png\" " = some "https://img.example/x.png" := by rfl

example : extractImageUrl "not a url" = none := by rfl

example :
    generate_blog "ai" { openai_api_key := some "k", serper_api_key := some "s" }
      { kickoff := Except.ok "Here: \x7b\"title\": \"T\", \"body\": \"B\"\x7d done",
        imageKickoff := Except.ok "\"https://img.example/x.png\"" } =
      Except.ok { title := Json.str "T", body_markdown := Json.str "B",
                  image_url := some "https://img.example/x.png" } := by rfl

example :
    generate_blog "ai" { openai_api_key := some "k", serper_api_key := some "s" }
      { kickoff := Except.ok "no braces here", imageKickoff := Except.ok "u" } =
      Except.ok { title := Json.str "Blog on ai", body_markdown := Json.str defaultBody,
                  image_url := none } := by rfl


lemma parseStringChars_plain (s r : List Char) (h : ∀ c ∈ s, plainChar c) :
    parseStringChars (s ++ '"' :: r) = some (s, r) := by
  induction s with
  | nil => rw [List.nil_append, parseStringChars.eq_def]; simp
  | cons c t ih =>
    obtain ⟨h1, h2, h3⟩ := h c (List.mem_cons_self c t)
    have ht : ∀ x ∈ t, plainChar x := fun x hx => h x (List.mem_cons_of_mem _ hx)
    rw [List.cons_append, parseStringChars.eq_def]
    simp [h1, h2, h3, ih ht]

lemma parseStep_brace (f : Nat) (t : List Char) :
    parseStep (f + 1) PMode.value ('\x7b' :: '"' :: t) = parseStep f (PMode.members []) ('"' :: t) := rfl

lemma parseStep_quotVal (f : Nat) (rest : List Char) :
    parseStep (f + 1) PMode.value ('"' :: rest) =
      (match parseStringChars rest with
       | some (s, r) => some (Json.str (String.mk s), r)
       | none => none) := rfl

lemma parseStep_mquot (f : Nat) (acc : List (String × Json)) (rest : List Char) :
    parseStep (f + 1) (PMode.members acc) ('"' :: rest) =
      (match parseStringChars rest with
       | none => none
       | some (key, r1) =>
         match skipWs r1 with
         | [] => none
         | c2 :: r2 =>
           if c2 = ':' then
             match parseStep f PMode.value (skipWs r2) with
             | none => none
             | some (v, r3) =>
               match skipWs r3 with
               | [] => none
               | c4 :: r4 =>
                 if c4 = ',' then
                   parseStep f (PMode.members (acc ++ [(String.mk key, v)])) (skipWs r4)
                 else if c4 = '\x7d' then some (Json.obj (acc ++ [(String.mk key, v)]), r4)
                 else none
           else none) := rfl

/-- One object member `"k":v` whose key consists of plain characters, followed by
`,` or `\x7d`. -/
lemma parseStep_member (f : Nat) (k : String) (t : List Char) (acc : List (String × Json))
    (hk : ∀ c ∈ k.data, plainChar c) :
    parseStep (f + 1) (PMode.members acc) ('"' :: (k.data ++ '"' :: ':' :: t)) =
      (match parseStep f PMode.value (skipWs t) with
       | none => none
       | some (v, r3) =>
         match skipWs r3 with
         | [] => none
         | c4 :: r4 =>
           if c4 = ',' then parseStep f (PMode.members (acc ++ [(k, v)])) (skipWs r4)
           else if c4 = '\x7d' then some (Json.obj (acc ++ [(k, v)]), r4)
           else none) := by
  rw [parseStep_mquot, parseStringChars_plain k.data (':' :: t) hk]
  rfl

lemma parseStep_strLit (f : Nat) (s : String) (r : List Char) (h : ∀ c ∈ s.data, plainChar c) :
    parseStep (f + 1) PMode.value (strLit s ++ r) = some (Json.str s, r) := by
  have e : strLit s ++ r = '"' :: (s.data ++ '"' :: r) := by simp [strLit]
  rw [e, parseStep_quotVal, parseStringChars_plain s.data r h]

lemma skipWs_strLit (s : String) (r : List Char) : skipWs (strLit s ++ r) = strLit s ++ r := by
  have e : strLit s ++ r = '"' :: (s.data ++ '"' :: r) := by simp [strLit]
  rw [e]
  rfl

lemma parseStep_nullLit (f : Nat) (r : List Char) :
    parseStep (f + 1) PMode.value (nullLit ++ r) = some (Json.null, r) := rfl

lemma skipWs_nullLit (r : List Char) : skipWs (nullLit ++ r) = nullLit ++ r := rfl

/-- The parser accepts a rendered two-member object and returns its members in
order. -/
lemma parseStep_objTwo (f : Nat) (k1 k2 : String) (v1 v2 : List Char) (j1 j2 : Json) (r : List Char)
    (hk1 : ∀ c ∈ k1.data, plainChar c) (hk2 : ∀ c ∈ k2.data, plainChar c)
    (hv1 : ∀ g r2, parseStep (g + 1) PMode.value (v1 ++ r2) = some (j1, r2))
    (hw1 : ∀ r2, skipWs (v1 ++ r2) = v1 ++ r2)
    (hv2 : ∀ g r2, parseStep (g + 1) PMode.value (v2 ++ r2) = some (j2, r2))
    (hw2 : ∀ r2, skipWs (v2 ++ r2) = v2 ++ r2) :
    parseStep (f + 4) PMode.value (objTwoChars k1 v1 k2 v2 ++ r) =
      some (Json.obj [(k1, j1), (k2, j2)], r) := by
  have e : objTwoChars k1 v1 k2 v2 ++ r =
      '\x7b' :: '"' :: (k1.data ++ '"' :: ':' ::
        (v1 ++ ',' :: '"' :: (k2.data ++ '"' :: ':' :: (v2 ++ '\x7d' :: r)))) := by
    simp [objTwoChars]
  rw [e, show f + 4 = (f + 3) + 1 from rfl, parseStep_brace,
      show f + 3 = (f + 2) + 1 from rfl,
      parseStep_member (f + 2) k1 _ [] hk1, hw1,
      show f + 2 = (f + 1) + 1 from rfl, hv1 (f + 1)]
  show parseStep (f + 1 + 1) (PMode.members [(k1, j1)])
      ('"' :: (k2.data ++ '"' :: ':' :: (v2 ++ '\x7d' :: r))) = _
  rw [parseStep_member (f + 1) k2 _ [(k1, j1)] hk2, hw2, hv2 f]
  rfl

/-- The parser accepts a rendered one-member object. -/
lemma parseStep_objOne (f : Nat) (k : String) (v : List Char) (j : Json) (r : List Char)
    (hk : ∀ c ∈ k.data, plainChar c)
    (hv : ∀ g r2, parseStep (g + 1) PMode.value (v ++ r2) = some (j, r2))
    (hw : ∀ r2, skipWs (v ++ r2) = v ++ r2) :
    parseStep (f + 3) PMode.value (objOneChars k v ++ r) = some (Json.obj [(k, j)], r) := by
  have e : objOneChars k v ++ r =
      '\x7b' :: '"' :: (k.data ++ '"' :: ':' :: (v ++ '\x7d' :: r)) := by
    simp [objOneChars]
  rw [e, show f + 3 = (f + 2) + 1 from rfl, parseStep_brace,
      show f + 2 = (f + 1) + 1 from rfl,
      parseStep_member (f + 1) k _ [] hk, hw, hv f]
  rfl

lemma json_loads_mk (J : List Char) :
    json_loads (String.mk J) =
      (match parseStep (J.length + 4) PMode.value (skipWs J) with
       | some (v, rest) => if skipWs rest = [] then some v else none
       | none => none) := rfl

/-- `json.loads` accepts a rendered two-member object. -/
lemma json_loads_objTwo (k1 k2 : String) (v1 v2 : List Char) (j1 j2 : Json)
    (hk1 : ∀ c ∈ k1.data, plainChar c) (hk2 : ∀ c ∈ k2.data, plainChar c)
    (hv1 : ∀ g r2, parseStep (g + 1) PMode.value (v1 ++ r2) = some (j1, r2))
    (hw1 : ∀ r2, skipWs (v1 ++ r2) = v1 ++ r2)
    (hv2 : ∀ g r2, parseStep (g + 1) PMode.value (v2 ++ r2) = some (j2, r2))
    (hw2 : ∀ r2, skipWs (v2 ++ r2) = v2 ++ r2) :
    json_loads (String.mk (objTwoChars k1 v1 k2 v2)) = some (Json.obj [(k1, j1), (k2, j2)]) := by
  have h := parseStep_objTwo (objTwoChars k1 v1 k2 v2).length k1 k2 v1 v2 j1 j2 []
    hk1 hk2 hv1 hw1 hv2 hw2
  rw [List.append_nil] at h
  rw [json_loads_mk, show skipWs (objTwoChars k1 v1 k2 v2) = objTwoChars k1 v1 k2 v2 from rfl, h]
  rfl

/-- `json.loads` accepts a rendered one-member object. -/
lemma json_loads_objOne (k : String) (v : List Char) (j : Json)
    (hk : ∀ c ∈ k.data, plainChar c)
    (hv : ∀ g r2, parseStep (g + 1) PMode.value (v ++ r2) = some (j, r2))
    (hw : ∀ r2, skipWs (v ++ r2) = v ++ r2) :
    json_loads (String.mk (objOneChars k v)) = some (Json.obj [(k, j)]) := by
  have h4 : (objOneChars k v).length + 4 = ((objOneChars k v).length + 1) + 3 := by omega
  have h := parseStep_objOne ((objOneChars k v).length + 1) k v j [] hk hv hw
  rw [List.append_nil] at h
  rw [json_loads_mk, show skipWs (objOneChars k v) = objOneChars k v from rfl, h4, h]
  rfl

lemma findIdxC_not_mem (c : Char) (l : List Char) (h : c ∉ l) : findIdxC c l = none := by
  induction l with
  | nil => rfl
  | cons a t ih =>
    have ha : ¬ a = c := fun e => h (e ▸ List.mem_cons_self a t)
    have ht : c ∉ t := fun hm => h (List.mem_cons_of_mem _ hm)
    simp [findIdxC, ha, ih ht]

lemma findIdxC_append_cons (P r : List Char) (c : Char) (h : c ∉ P) :
    findIdxC c (P ++ c :: r) = some P.length := by
  induction P with
  | nil => simp [findIdxC]
  | cons a t ih =>
    have ha : ¬ a = c := fun e => h (e ▸ List.mem_cons_self a t)
    have ht : c ∉ t := fun hm => h (List.mem_cons_of_mem _ hm)
    simp [findIdxC, ha, ih ht]

lemma rfindIdxC_append (P J Q : List Char) (c : Char) (J2 : List Char)
    (hJ : J = J2 ++ [c]) (hQ : c ∉ Q) :
    rfindIdxC c (P ++ J ++ Q) = some (P.length + J.length - 1) := by
  subst hJ
  have hrev : (P ++ (J2 ++ [c]) ++ Q).reverse = Q.reverse ++ c :: (J2.reverse ++ P.reverse) := by
    simp
  have hQr : c ∉ Q.reverse := by simpa using hQ
  unfold rfindIdxC
  rw [hrev, findIdxC_append_cons _ _ _ hQr]
  simp only [Option.map_some']
  congr 1
  simp only [List.length_append, List.length_reverse, List.length_cons, List.length_singleton]
  omega

/-- When the editor output is `P ++ J ++ Q` with `J` a bracketed span, no `\x7b`
before it and no `\x7d` after it, the extraction block slices exactly `J` and
hands it to `json.loads`. -/
lemma processEditorOutput_slice (topic raw : String) (P J Q : List Char)
    (hdata : raw.data = P ++ J ++ Q)
    (hP : '\x7b' ∉ P) (hQ : '\x7d' ∉ Q)
    (J1 : List Char) (hJ1 : J = '\x7b' :: J1)
    (J2 : List Char) (hJ2 : J = J2 ++ ['\x7d'])
    (hlen : 2 ≤ J.length) :
    processEditorOutput topic raw =
      (match json_loads (String.mk J) with
       | some (Json.obj members) =>
         (jsonField members "title" (defaultTitle topic), jsonField members "body" defaultBody)
       | _ => (Json.str (defaultTitle topic), Json.str defaultBody)) := by
  have hfind : findIdxC '\x7b' raw.data = some P.length := by
    rw [hdata, hJ1, show P ++ '\x7b' :: J1 ++ Q = P ++ '\x7b' :: (J1 ++ Q) by simp]
    exact findIdxC_append_cons P _ _ hP
  have hrfind : rfindIdxC '\x7d' raw.data = some (P.length + J.length - 1) := by
    rw [hdata]
    exact rfindIdxC_append P J Q _ J2 hJ2 hQ
  have hslice : (raw.data.drop P.length).take (P.length + J.length - 1 + 1 - P.length) = J := by
    rw [hdata, show P.length + J.length - 1 + 1 - P.length = J.length by omega,
        show P ++ J ++ Q = P ++ (J ++ Q) by simp, List.drop_left, List.take_left]
  have hlt : P.length < P.length + J.length - 1 := by omega
  unfold processEditorOutput
  rw [hfind, hrfind]
  simp only [hlt, if_true]
  rw [hslice]

lemma objTwoChars_eq_cons (k1 : String) (v1 : List Char) (k2 : String) (v2 : List Char) :
    objTwoChars k1 v1 k2 v2 =
      '\x7b' :: ('"' :: (k1.data ++ '"' :: ':' :: (v1 ++ ',' :: '"' :: (k2.data ++ '"' :: ':' :: (v2 ++ ['\x7d']))))) := rfl

lemma objTwoChars_eq_concat (k1 : String) (v1 : List Char) (k2 : String) (v2 : List Char) :
    objTwoChars k1 v1 k2 v2 =
      ('\x7b' :: '"' :: (k1.data ++ '"' :: ':' :: (v1 ++ ',' :: '"' :: (k2.data ++ '"' :: ':' :: v2)))) ++ ['\x7d'] := by
  simp [objTwoChars]

lemma objTwoChars_len (k1 : String) (v1 : List Char) (k2 : String) (v2 : List Char) :
    2 ≤ (objTwoChars k1 v1 k2 v2).length := by
  simp [objTwoChars]

lemma objOneChars_eq_cons (k : String) (v : List Char) :
    objOneChars k v = '\x7b' :: ('"' :: (k.data ++ '"' :: ':' :: (v ++ ['\x7d']))) := rfl

lemma objOneChars_eq_concat (k : String) (v : List Char) :
    objOneChars k v = ('\x7b' :: '"' :: (k.data ++ '"' :: ':' :: v)) ++ ['\x7d'] := by
  simp [objOneChars]

lemma objOneChars_len (k : String) (v : List Char) : 2 ≤ (objOneChars k v).length := by
  simp [objOneChars]

lemma lookupLast_two_fst (k1 k2 : String) (v1 v2 : Json) (h : ¬ k2 = k1) :
    lookupLast [(k1, v1), (k2, v2)] k1 = some v1 := by
  simp [lookupLast, h]

lemma lookupLast_two_snd (k1 k2 : String) (v1 v2 : Json) :
    lookupLast [(k1, v1), (k2, v2)] k2 = some v2 := by
  simp [lookupLast]

lemma lookupLast_one_eq (k : String) (v : Json) : lookupLast [(k, v)] k = some v := by
  simp [lookupLast]

lemma lookupLast_one_ne (k q : String) (v : Json) (h : ¬ k = q) : lookupLast [(k, v)] q = none := by
  simp [lookupLast, h]

lemma truthy_str (s : String) (h : s.data ≠ []) : (Json.str s).truthy = true := by
  simp [Json.truthy, h]

/-- Extraction result when the editor output embeds a well-formed
`\x7b"title": X, "body": Y\x7d` object with non-empty string values. -/
lemma processEditorOutput_titleBody (topic raw : String) (P Q : List Char) (X Y : String)
    (hdata : raw.data = P ++ objTwoChars "title" (strLit X) "body" (strLit Y) ++ Q)
    (hP : '\x7b' ∉ P) (hQ : '\x7d' ∉ Q)
    (hXp : ∀ c ∈ X.data, plainChar c) (hYp : ∀ c ∈ Y.data, plainChar c)
    (hX : X.data ≠ []) (hY : Y.data ≠ []) :
    processEditorOutput topic raw = (Json.str X, Json.str Y) := by
  rw [processEditorOutput_slice topic raw P _ Q hdata hP hQ _ (objTwoChars_eq_cons _ _ _ _)
      _ (objTwoChars_eq_concat _ _ _ _) (objTwoChars_len _ _ _ _)]
  rw [json_loads_objTwo "title" "body" (strLit X) (strLit Y) (Json.str X) (Json.str Y)
      (by decide) (by decide)
      (fun g r2 => parseStep_strLit g X r2 hXp) (skipWs_strLit X)
      (fun g r2 => parseStep_strLit g Y r2 hYp) (skipWs_strLit Y)]
  show (jsonField [("title", Json.str X), ("body", Json.str Y)] "title" (defaultTitle topic),
        jsonField [("title", Json.str X), ("body", Json.str Y)] "body" defaultBody) = _
  rw [jsonField, jsonField, lookupLast_two_fst _ _ _ _ (by decide), lookupLast_two_snd]
  simp [truthy_str X hX, truthy_str Y hY]

/-- Extraction result for a valid one-member object `\x7b"body": Y\x7d` (title key
absent): the title falls back, the body is kept. -/
lemma processEditorOutput_bodyOnly (topic raw : String) (P Q : List Char) (Y : String)
    (hdata : raw.data = P ++ objOneChars "body" (strLit Y) ++ Q)
    (hP : '\x7b' ∉ P) (hQ : '\x7d' ∉ Q)
    (hYp : ∀ c ∈ Y.data, plainChar c) (hY : Y.data ≠ []) :
    processEditorOutput topic raw = (Json.str (defaultTitle topic), Json.str Y) := by
  rw [processEditorOutput_slice topic raw P _ Q hdata hP hQ _ (objOneChars_eq_cons _ _)
      _ (objOneChars_eq_concat _ _) (objOneChars_len _ _)]
  rw [json_loads_objOne "body" (strLit Y) (Json.str Y) (by decide)
      (fun g r2 => parseStep_strLit g Y r2 hYp) (skipWs_strLit Y)]
  show (jsonField [("body", Json.str Y)] "title" (defaultTitle topic),
        jsonField [("body", Json.str Y)] "body" defaultBody) = _
  rw [jsonField, jsonField, lookupLast_one_ne _ _ _ (by decide), lookupLast_one_eq]
  simp [truthy_str Y hY]

/-- Extraction result for a valid one-member object `\x7b"title": X\x7d` (body key
absent): the title is kept, the body falls back. -/
lemma processEditorOutput_titleOnly (topic raw : String) (P Q : List Char) (X : String)
    (hdata : raw.data = P ++ objOneChars "title" (strLit X) ++ Q)
    (hP : '\x7b' ∉ P) (hQ : '\x7d' ∉ Q)
    (hXp : ∀ c ∈ X.data, plainChar c) (hX : X.data ≠ []) :
    processEditorOutput topic raw = (Json.str X, Json.str defaultBody) := by
  rw [processEditorOutput_slice topic raw P _ Q hdata hP hQ _ (objOneChars_eq_cons _ _)
      _ (objOneChars_eq_concat _ _) (objOneChars_len _ _)]
  rw [json_loads_objOne "title" (strLit X) (Json.str X) (by decide)
      (fun g r2 => parseStep_strLit g X r2 hXp) (skipWs_strLit X)]
  show (jsonField [("title", Json.str X)] "title" (defaultTitle topic),
        jsonField [("title", Json.str X)] "body" defaultBody) = _
  rw [jsonField, jsonField, lookupLast_one_eq, lookupLast_one_ne _ _ _ (by decide)]
  simp [truthy_str X hX]

/-- Extraction result when the title key maps to the empty string: the empty
string is falsy, so the title falls back while the body is kept. -/
lemma processEditorOutput_emptyTitle (topic raw : String) (P Q : List Char) (Y : String)
    (hdata : raw.data = P ++ objTwoChars "title" (strLit "") "body" (strLit Y) ++ Q)
    (hP : '\x7b' ∉ P) (hQ : '\x7d' ∉ Q)
    (hYp : ∀ c ∈ Y.data, plainChar c) (hY : Y.data ≠ []) :
    processEditorOutput topic raw = (Json.str (defaultTitle topic), Json.str Y) := by
  rw [processEditorOutput_slice topic raw P _ Q hdata hP hQ _ (objTwoChars_eq_cons _ _ _ _)
      _ (objTwoChars_eq_concat _ _ _ _) (objTwoChars_len _ _ _ _)]
  rw [json_loads_objTwo "title" "body" (strLit "") (strLit Y) (Json.str "") (Json.str Y)
      (by decide) (by decide)
      (fun g r2 => parseStep_strLit g "" r2 (by decide)) (skipWs_strLit "")
      (fun g r2 => parseStep_strLit g Y r2 hYp) (skipWs_strLit Y)]
  show (jsonField [("title", Json.str ""), ("body", Json.str Y)] "title" (defaultTitle topic),
        jsonField [("title", Json.str ""), ("body", Json.str Y)] "body" defaultBody) = _
  rw [jsonField, jsonField, lookupLast_two_fst _ _ _ _ (by decide), lookupLast_two_snd]
  simp [truthy_str Y hY, Json.truthy, hY]

/-! ### Unfolding lemmas for the pipeline runs -/

lemma generate_blogRun_missingKey (topic : String) (env : Env) (crew : CrewBehavior)
    (hkey : envVarMissing env.openai_api_key = true) :
    generate_blogRun topic env crew =
      { result := Except.error (PipelineError.environmentError
          "OpenAI API key not found in environment variables.")
        searchTool := none
        calls := [] } := by
  unfold generate_blogRun
  rw [hkey]
  rfl

lemma generate_blogRun_kickoffError (topic : String) (env : Env) (crew : CrewBehavior) (e : String)
    (hkey : envVarMissing env.openai_api_key = false)
    (hk : crew.kickoff = Except.error e) :
    generate_blogRun topic env crew =
      { result := Except.error (PipelineError.blogGenerationError ("CrewAI pipeline failed: " ++ e))
        searchTool := some (chosenSearchTool env)
        calls := [StageCall.textKickoff] } := by
  unfold generate_blogRun chosenSearchTool
  rw [hkey, hk]
  rfl

lemma generate_blogRun_okSkip (topic : String) (env : Env) (crew : CrewBehavior) (raw : String)
    (b : Json)
    (hkey : envVarMissing env.openai_api_key = false)
    (hk : crew.kickoff = Except.ok raw)
    (hfb : processEditorOutput topic raw = (Json.str (defaultTitle topic), b)) :
    generate_blogRun topic env crew =
      { result := Except.ok { title := Json.str (defaultTitle topic), body_markdown := b,
                              image_url := none }
        searchTool := some (chosenSearchTool env)
        calls := [StageCall.textKickoff] } := by
  unfold generate_blogRun chosenSearchTool
  rw [hkey, hk]
  simp [hfb, pyEqStr]

lemma generate_blogRun_okImage (topic : String) (env : Env) (crew : CrewBehavior) (raw : String)
    (t b : Json)
    (hkey : envVarMissing env.openai_api_key = false)
    (hk : crew.kickoff = Except.ok raw)
    (hfb : processEditorOutput topic raw = (t, b))
    (ht : pyEqStr t (defaultTitle topic) = false) :
    generate_blogRun topic env crew =
      { result := Except.ok { title := t, body_markdown := b,
                              image_url := (match crew.imageKickoff with
                                            | Except.error _ => none
                                            | Except.ok r2 => extractImageUrl r2) }
        searchTool := some (chosenSearchTool env)
        calls := [StageCall.textKickoff, StageCall.imageKickoff] } := by
  unfold generate_blogRun chosenSearchTool
  rw [hkey, hk]
  simp only [hfb, ht, Bool.false_eq_true, if_false]
  cases him : crew.imageKickoff with
  | error e2 => rfl
  | ok raw_out => rfl

/-- Extraction result when the title key maps to JSON `null`: `None` is falsy, so
the title falls back while the body is kept. -/
lemma processEditorOutput_nullTitle (topic raw : String) (P Q : List Char) (Y : String)
    (hdata : raw.data = P ++ objTwoChars "title" nullLit "body" (strLit Y) ++ Q)
    (hP : '\x7b' ∉ P) (hQ : '\x7d' ∉ Q)
    (hYp : ∀ c ∈ Y.data, plainChar c) (hY : Y.data ≠ []) :
    processEditorOutput topic raw = (Json.str (defaultTitle topic), Json.str Y) := by
  rw [processEditorOutput_slice topic raw P _ Q hdata hP hQ _ (objTwoChars_eq_cons _ _ _ _)
      _ (objTwoChars_eq_concat _ _ _ _) (objTwoChars_len _ _ _ _)]
  rw [json_loads_objTwo "title" "body" nullLit (strLit Y) Json.null (Json.str Y)
      (by decide) (by decide)
      parseStep_nullLit skipWs_nullLit
      (fun g r2 => parseStep_strLit g Y r2 hYp) (skipWs_strLit Y)]
  show (jsonField [("title", Json.null), ("body", Json.str Y)] "title" (defaultTitle topic),
        jsonField [("title", Json.null), ("body", Json.str Y)] "body" defaultBody) = _
  rw [jsonField, jsonField, lookupLast_two_fst _ _ _ _ (by decide), lookupLast_two_snd]
  simp [truthy_str Y hY, Json.truthy, hY]

/-! ### Small facts used across claims -/

lemma pyEqStr_true_iff (j : Json) (s : String) : pyEqStr j s = true ↔ j = Json.str s := by
  cases j <;> simp [pyEqStr]

lemma defaultTitle_data_ne (topic : String) : (defaultTitle topic).data ≠ [] := by
  intro hc
  have hlen : (defaultTitle topic).data.length = 0 := by rw [hc]; rfl
  rw [show (defaultTitle topic).data = "Blog on ".data ++ topic.data from rfl] at hlen
  rw [List.length_append, show ("Blog on ".data).length = 8 from rfl] at hlen
  omega

lemma defaultBody_data_ne : (defaultBody).data ≠ [] := by
  intro hc
  exact absurd (congrArg List.length hc) (by decide)

/-! ### Claims -/

/-- **C1.** For every topic, a successful pipeline run whose editor-stage output
contains the well-formed JSON object mapping "title" to a non-empty string X and
"body" to a non-empty string Y (embedded in arbitrary surrounding text with no
earlier opening brace and no later closing brace, X and Y made of plain JSON
string characters) returns a result with title X and body_markdown Y. -/
theorem claim1_wellformed_editor_json (topic X Y : String) (env : Env) (crew : CrewBehavior)
    (raw : String) (P Q : List Char)
    (hkey : envVarMissing env.openai_api_key = false)
    (hk : crew.kickoff = Except.ok raw)
    (hdata : raw.data = P ++ objTwoChars "title" (strLit X) "body" (strLit Y) ++ Q)
    (hP : '\x7b' ∉ P) (hQ : '\x7d' ∉ Q)
    (hXp : ∀ c ∈ X.data, plainChar c) (hYp : ∀ c ∈ Y.data, plainChar c)
    (hX : X.data ≠ []) (hY : Y.data ≠ []) :
    (generate_blog topic env crew).map (fun r => (r.title, r.body_markdown)) =
      Except.ok (Json.str X, Json.str Y) := by
  have hfb := processEditorOutput_titleBody topic raw P Q X Y hdata hP hQ hXp hYp hX hY
  by_cases hpe : pyEqStr (Json.str X) (defaultTitle topic) = true
  · have hXd : X = defaultTitle topic := by
      have := (pyEqStr_true_iff (Json.str X) (defaultTitle topic)).1 hpe
      simpa using this
    unfold generate_blog
    rw [generate_blogRun_okSkip topic env crew raw (Json.str Y) hkey hk (by rw [hfb, hXd])]
    simp [Except.map, hXd]
  · have hpe2 : pyEqStr (Json.str X) (defaultTitle topic) = false := by
      simpa using hpe
    unfold generate_blog
    rw [generate_blogRun_okImage topic env crew raw _ _ hkey hk hfb hpe2]
    simp [Except.map]

/-- **C2.** For every topic, if the editor-stage output has no first opening
brace, no last closing brace, or the last closing brace not after the first
opening brace, the pipeline does not raise: it returns the fallback title
"Blog on " ++ topic and the fixed parse-error body placeholder (and the image
stage is skipped, so image_url is None). -/
theorem claim2_no_bracket_pair (topic : String) (env : Env) (crew : CrewBehavior) (raw : String)
    (hkey : envVarMissing env.openai_api_key = false)
    (hk : crew.kickoff = Except.ok raw)
    (hbr : findIdxC '\x7b' raw.data = none ∨ rfindIdxC '\x7d' raw.data = none ∨
           (∃ s e, findIdxC '\x7b' raw.data = some s ∧ rfindIdxC '\x7d' raw.data = some e ∧
             ¬ s < e)) :
    generate_blog topic env crew =
      Except.ok { title := Json.str (defaultTitle topic), body_markdown := Json.str defaultBody,
                  image_url := none } := by
  have hfb : processEditorOutput topic raw = (Json.str (defaultTitle topic), Json.str defaultBody) := by
    unfold processEditorOutput
    rcases hbr with h | h | ⟨s, e, hs, he, hlt⟩
    · rw [h]
    · cases h1 : findIdxC '\x7b' raw.data with
      | none => rfl
      | some s => rw [h]
    · rw [hs, he]
      simp [hlt]
  unfold generate_blog
  rw [generate_blogRun_okSkip topic env crew raw (Json.str defaultBody) hkey hk hfb]

/-- **C3.** Field recovery is independent per field: a valid editor JSON object
with only a "body" key yields the fallback title together with that body, and
symmetrically an object with only a "title" key keeps the parsed title while the
body falls back to the parse-error placeholder. -/
theorem claim3_partial_recovery (topic X Y : String) (env : Env)
    (crewA crewB : CrewBehavior) (rawA rawB : String) (PA QA PB QB : List Char)
    (hkey : envVarMissing env.openai_api_key = false)
    (hkA : crewA.kickoff = Except.ok rawA)
    (hdA : rawA.data = PA ++ objOneChars "body" (strLit Y) ++ QA)
    (hPA : '\x7b' ∉ PA) (hQA : '\x7d' ∉ QA)
    (hYp : ∀ c ∈ Y.data, plainChar c) (hY : Y.data ≠ [])
    (hkB : crewB.kickoff = Except.ok rawB)
    (hdB : rawB.data = PB ++ objOneChars "title" (strLit X) ++ QB)
    (hPB : '\x7b' ∉ PB) (hQB : '\x7d' ∉ QB)
    (hXp : ∀ c ∈ X.data, plainChar c) (hX : X.data ≠ []) :
    generate_blog topic env crewA =
      Except.ok { title := Json.str (defaultTitle topic), body_markdown := Json.str Y,
                  image_url := none } ∧
    (generate_blog topic env crewB).map (fun r => (r.title, r.body_markdown)) =
      Except.ok (Json.str X, Json.str defaultBody) := by
  constructor
  · have hfb := processEditorOutput_bodyOnly topic rawA PA QA Y hdA hPA hQA hYp hY
    unfold generate_blog
    rw [generate_blogRun_okSkip topic env crewA rawA (Json.str Y) hkey hkA hfb]
  · have hfb := processEditorOutput_titleOnly topic rawB PB QB X hdB hPB hQB hXp hX
    by_cases hpe : pyEqStr (Json.str X) (defaultTitle topic) = true
    · have hXd : X = defaultTitle topic := by
        have := (pyEqStr_true_iff (Json.str X) (defaultTitle topic)).1 hpe
        simpa using this
      unfold generate_blog
      rw [generate_blogRun_okSkip topic env crewB rawB (Json.str defaultBody) hkey hkB
          (by rw [hfb, hXd])]
      simp [Except.map, hXd]
    · have hpe2 : pyEqStr (Json.str X) (defaultTitle topic) = false := by simpa using hpe
      unfold generate_blog
      rw [generate_blogRun_okImage topic env crewB rawB _ _ hkey hkB hfb hpe2]
      simp [Except.map]

/-- Extraction result when the body key maps to the empty string: the empty
string is falsy, so the body falls back to the parse-error placeholder while the
title is kept. -/
lemma processEditorOutput_emptyBody (topic raw : String) (P Q : List Char) (X : String)
    (hdata : raw.data = P ++ objTwoChars "title" (strLit X) "body" (strLit "") ++ Q)
    (hP : '\x7b' ∉ P) (hQ : '\x7d' ∉ Q)
    (hXp : ∀ c ∈ X.data, plainChar c) (hX : X.data ≠ []) :
    processEditorOutput topic raw = (Json.str X, Json.str defaultBody) := by
  rw [processEditorOutput_slice topic raw P _ Q hdata hP hQ _ (objTwoChars_eq_cons _ _ _ _)
      _ (objTwoChars_eq_concat _ _ _ _) (objTwoChars_len _ _ _ _)]
  rw [json_loads_objTwo "title" "body" (strLit X) (strLit "") (Json.str X) (Json.str "")
      (by decide) (by decide)
      (fun g r2 => parseStep_strLit g X r2 hXp) (skipWs_strLit X)
      (fun g r2 => parseStep_strLit g "" r2 (by decide)) (skipWs_strLit "")]
  show (jsonField [("title", Json.str X), ("body", Json.str "")] "title" (defaultTitle topic),
        jsonField [("title", Json.str X), ("body", Json.str "")] "body" defaultBody) = _
  rw [jsonField, jsonField, lookupLast_two_fst _ _ _ _ (by decide), lookupLast_two_snd]
  simp [truthy_str X hX, Json.truthy, hX]

/-- Extraction result when the body key maps to JSON `null`: `None` is falsy, so
the body falls back to the parse-error placeholder while the title is kept. -/
lemma processEditorOutput_nullBody (topic raw : String) (P Q : List Char) (X : String)
    (hdata : raw.data = P ++ objTwoChars "title" (strLit X) "body" nullLit ++ Q)
    (hP : '\x7b' ∉ P) (hQ : '\x7d' ∉ Q)
    (hXp : ∀ c ∈ X.data, plainChar c) (hX : X.data ≠ []) :
    processEditorOutput topic raw = (Json.str X, Json.str defaultBody) := by
  rw [processEditorOutput_slice topic raw P _ Q hdata hP hQ _ (objTwoChars_eq_cons _ _ _ _)
      _ (objTwoChars_eq_concat _ _ _ _) (objTwoChars_len _ _ _ _)]
  rw [json_loads_objTwo "title" "body" (strLit X) nullLit (Json.str X) Json.null
      (by decide) (by decide)
      (fun g r2 => parseStep_strLit g X r2 hXp) (skipWs_strLit X)
      parseStep_nullLit skipWs_nullLit]
  show (jsonField [("title", Json.str X), ("body", Json.null)] "title" (defaultTitle topic),
        jsonField [("title", Json.str X), ("body", Json.null)] "body" defaultBody) = _
  rw [jsonField, jsonField, lookupLast_two_fst _ _ _ _ (by decide), lookupLast_two_snd]
  simp [truthy_str X hX, Json.truthy, hX]

/-- When extraction yields a string title `X` and some body value `b`, the run
returns a result whose title is `X` and whose body is `b`, whether or not `X`
coincides with the fallback title (the image stage then differs, but the
title/body projection does not). -/
lemma generate_blog_titleBody_proj (topic : String) (env : Env) (crew : CrewBehavior)
    (raw : String) (X : String) (b : Json)
    (hkey : envVarMissing env.openai_api_key = false)
    (hk : crew.kickoff = Except.ok raw)
    (hfb : processEditorOutput topic raw = (Json.str X, b)) :
    (generate_blog topic env crew).map (fun r => (r.title, r.body_markdown)) =
      Except.ok (Json.str X, b) := by
  by_cases hpe : pyEqStr (Json.str X) (defaultTitle topic) = true
  · have hXd : X = defaultTitle topic := by
      have := (pyEqStr_true_iff (Json.str X) (defaultTitle topic)).1 hpe
      simpa using this
    unfold generate_blog
    rw [generate_blogRun_okSkip topic env crew raw b hkey hk (by rw [hfb, hXd])]
    simp [Except.map, hXd]
  · have hpe2 : pyEqStr (Json.str X) (defaultTitle topic) = false := by simpa using hpe
    unfold generate_blog
    rw [generate_blogRun_okImage topic env crew raw _ _ hkey hk hfb hpe2]
    simp [Except.map]

/-- **C9.** (Implicit claim.) Extraction tests the value's truthiness rather
than key presence, independently for either field: a valid editor JSON whose
"title" maps to the empty string — or to null — falls back to the default title
while the body Y is kept; and symmetrically, a valid editor JSON whose "body"
maps to the empty string — or to null — falls back to the parse-error
placeholder body while the title X is kept. -/
theorem claim9_falsy_value_fallback (topic X Y : String) (env : Env)
    (crewA crewB crewC crewD : CrewBehavior) (rawA rawB rawC rawD : String)
    (PA QA PB QB PC QC PD QD : List Char)
    (hkey : envVarMissing env.openai_api_key = false)
    (hYp : ∀ c ∈ Y.data, plainChar c) (hY : Y.data ≠ [])
    (hXp : ∀ c ∈ X.data, plainChar c) (hX : X.data ≠ [])
    (hkA : crewA.kickoff = Except.ok rawA)
    (hdA : rawA.data = PA ++ objTwoChars "title" (strLit "") "body" (strLit Y) ++ QA)
    (hPA : '\x7b' ∉ PA) (hQA : '\x7d' ∉ QA)
    (hkB : crewB.kickoff = Except.ok rawB)
    (hdB : rawB.data = PB ++ objTwoChars "title" nullLit "body" (strLit Y) ++ QB)
    (hPB : '\x7b' ∉ PB) (hQB : '\x7d' ∉ QB)
    (hkC : crewC.kickoff = Except.ok rawC)
    (hdC : rawC.data = PC ++ objTwoChars "title" (strLit X) "body" (strLit "") ++ QC)
    (hPC : '\x7b' ∉ PC) (hQC : '\x7d' ∉ QC)
    (hkD : crewD.kickoff = Except.ok rawD)
    (hdD : rawD.data = PD ++ objTwoChars "title" (strLit X) "body" nullLit ++ QD)
    (hPD : '\x7b' ∉ PD) (hQD : '\x7d' ∉ QD) :
    generate_blog topic env crewA =
      Except.ok { title := Json.str (defaultTitle topic), body_markdown := Json.str Y,
                  image_url := none } ∧
    generate_blog topic env crewB =
      Except.ok { title := Json.str (defaultTitle topic), body_markdown := Json.str Y,
                  image_url := none } ∧
    (generate_blog topic env crewC).map (fun r => (r.title, r.body_markdown)) =
      Except.ok (Json.str X, Json.str defaultBody) ∧
    (generate_blog topic env crewD).map (fun r => (r.title, r.body_markdown)) =
      Except.ok (Json.str X, Json.str defaultBody) := by
  refine ⟨?_, ?_, ?_, ?_⟩
  · have hfb := processEditorOutput_emptyTitle topic rawA PA QA Y hdA hPA hQA hYp hY
    unfold generate_blog
    rw [generate_blogRun_okSkip topic env crewA rawA (Json.str Y) hkey hkA hfb]
  · have hfb := processEditorOutput_nullTitle topic rawB PB QB Y hdB hPB hQB hYp hY
    unfold generate_blog
    rw [generate_blogRun_okSkip topic env crewB rawB (Json.str Y) hkey hkB hfb]
  · exact generate_blog_titleBody_proj topic env crewC rawC X (Json.str defaultBody) hkey hkC
      (processEditorOutput_emptyBody topic rawC PC QC X hdC hPC hQC hXp hX)
  · exact generate_blog_titleBody_proj topic env crewD rawD X (Json.str defaultBody) hkey hkD
      (processEditorOutput_nullBody topic rawD PD QD X hdD hPD hQD hXp hX)

/-- **C4.** The image stage is invoked if and only if the final title after
extraction differs from the fallback string "Blog on " ++ topic; when the title
equals the fallback, the image stage is skipped entirely and image_url is None. -/
theorem claim4_image_gating (topic : String) (env : Env) (crew : CrewBehavior) (raw : String)
    (hkey : envVarMissing env.openai_api_key = false)
    (hk : crew.kickoff = Except.ok raw) :
    ((StageCall.imageKickoff ∈ (generate_blogRun topic env crew).calls) ↔
      pyEqStr (processEditorOutput topic raw).1 (defaultTitle topic) = false) ∧
    (pyEqStr (processEditorOutput topic raw).1 (defaultTitle topic) = true →
      generate_blog topic env crew =
        Except.ok { title := (processEditorOutput topic raw).1,
                    body_markdown := (processEditorOutput topic raw).2,
                    image_url := none }) := by
  have hfb : processEditorOutput topic raw =
      ((processEditorOutput topic raw).1, (processEditorOutput topic raw).2) := rfl
  by_cases hpe : pyEqStr (processEditorOutput topic raw).1 (defaultTitle topic) = true
  · have hXd : (processEditorOutput topic raw).1 = Json.str (defaultTitle topic) :=
      (pyEqStr_true_iff _ _).1 hpe
    have hrun := generate_blogRun_okSkip topic env crew raw (processEditorOutput topic raw).2
      hkey hk (by rw [hfb, hXd])
    constructor
    · rw [hrun]
      simp [hpe]
    · intro _
      unfold generate_blog
      rw [hrun, hXd]
  · have hpe2 : pyEqStr (processEditorOutput topic raw).1 (defaultTitle topic) = false := by
      simpa using hpe
    have hrun := generate_blogRun_okImage topic env crew raw _ _ hkey hk hfb hpe2
    constructor
    · rw [hrun]
      simp [hpe2]
    · intro hcontra
      rw [hpe2] at hcontra
      exact absurd hcontra (by simp)

/-- **C5.** Whenever the image stage runs, image_url is the stage's raw output
stripped of surrounding whitespace and quote characters when the candidate
starts with "http" and None otherwise; a quoted URL is unquoted, a non-URL
yields None, and an exception in the image stage yields None without propagating
past the pipeline boundary. -/
theorem claim5_image_url_extraction (topic : String) (env : Env)
    (crew crewE : CrewBehavior) (raw out e : String)
    (hkey : envVarMissing env.openai_api_key = false)
    (hk : crew.kickoff = Except.ok raw)
    (hkE : crewE.kickoff = Except.ok raw)
    (himg : pyEqStr (processEditorOutput topic raw).1 (defaultTitle topic) = false)
    (hok : crew.imageKickoff = Except.ok out)
    (herr : crewE.imageKickoff = Except.error e) :
    generate_blog topic env crew =
      Except.ok { title := (processEditorOutput topic raw).1,
                  body_markdown := (processEditorOutput topic raw).2,
                  image_url := extractImageUrl out } ∧
    generate_blog topic env crewE =
      Except.ok { title := (processEditorOutput topic raw).1,
                  body_markdown := (processEditorOutput topic raw).2,
                  image_url := none } ∧
    extractImageUrl "\"https://img.example/x.png\"" = some "https://img.example/x.png" ∧
    extractImageUrl "not a url" = none := by
  have hfb : processEditorOutput topic raw =
      ((processEditorOutput topic raw).1, (processEditorOutput topic raw).2) := rfl
  refine ⟨?_, ?_, by rfl, by rfl⟩
  · unfold generate_blog
    rw [generate_blogRun_okImage topic env crew raw _ _ hkey hk hfb himg, hok]
  · unfold generate_blog
    rw [generate_blogRun_okImage topic env crewE raw _ _ hkey hkE hfb himg, herr]

/-- **C6.** If the required OPENAI_API_KEY credential is missing, the pipeline
raises a configuration error before any stage executes (the kickoff-call list is
empty), and the endpoint maps it to HTTP 500 with the configuration-specific
detail, which carries the configuration prefix and not the pipeline-failure
prefix. -/
theorem claim6_missing_credential (topic : String) (env : Env) (crew : CrewBehavior)
    (hkey : envVarMissing env.openai_api_key = true) :
    (generate_blogRun topic env crew).calls = [] ∧
    generate_blog topic env crew =
      Except.error (PipelineError.environmentError
        "OpenAI API key not found in environment variables.") ∧
    generate_blog_endpoint topic env crew =
      EndpointResult.httpError 500
        "Server configuration error: OpenAI API key not found in environment variables." ∧
    prefixOfB "Server configuration error: ".data
      "Server configuration error: OpenAI API key not found in environment variables.".data = true ∧
    prefixOfB "Failed to generate blog: ".data
      "Server configuration error: OpenAI API key not found in environment variables.".data = false := by
  have hrun := generate_blogRun_missingKey topic env crew hkey
  have hgen : generate_blog topic env crew =
      Except.error (PipelineError.environmentError
        "OpenAI API key not found in environment variables.") := by
    unfold generate_blog
    rw [hrun]
  refine ⟨by rw [hrun], hgen, ?_, by rfl, by rfl⟩
  unfold generate_blog_endpoint
  rw [hgen]
  rfl

/-- **C7.** Any exception raised during the text-stage kickoff (research,
writing, editing) is caught once at the outer level and re-raised as a single
BlogGenerationError wrapping the original cause; the endpoint maps it to HTTP
500 with the pipeline-failure detail, and the response carries no partial
stage-3/4 output (it is an error response, not a success body). -/
theorem claim7_pipeline_failure (topic : String) (env : Env) (crew : CrewBehavior) (cause : String)
    (hkey : envVarMissing env.openai_api_key = false)
    (hk : crew.kickoff = Except.error cause) :
    generate_blog topic env crew =
      Except.error (PipelineError.blogGenerationError ("CrewAI pipeline failed: " ++ cause)) ∧
    generate_blog_endpoint topic env crew =
      EndpointResult.httpError 500
        ("Failed to generate blog: " ++ ("CrewAI pipeline failed: " ++ cause)) ∧
    (generate_blogRun topic env crew).calls = [StageCall.textKickoff] := by
  have hrun := generate_blogRun_kickoffError topic env crew cause hkey hk
  have hgen : generate_blog topic env crew =
      Except.error (PipelineError.blogGenerationError ("CrewAI pipeline failed: " ++ cause)) := by
    unfold generate_blog
    rw [hrun]
  refine ⟨hgen, ?_, by rw [hrun]⟩
  unfold generate_blog_endpoint
  rw [hgen]

/-- **C8.** If the optional SERPER_API_KEY credential is absent, the pipeline
does not fail because of it: the research stage is configured with the
DuckDuckGo search tool instead of SerperDev, the text kickoff still executes,
and (when the kickoff itself succeeds) the run returns a result. -/
theorem claim8_serper_fallback (topic : String) (env : Env) (crew : CrewBehavior) (raw : String)
    (hkey : envVarMissing env.openai_api_key = false)
    (hserp : envVarMissing env.serper_api_key = true)
    (hk : crew.kickoff = Except.ok raw) :
    (generate_blogRun topic env crew).searchTool = some SearchTool.duckDuckGo ∧
    StageCall.textKickoff ∈ (generate_blogRun topic env crew).calls ∧
    (generate_blog topic env crew).isOk = true := by
  have hst : chosenSearchTool env = SearchTool.duckDuckGo := by
    unfold chosenSearchTool
    rw [hserp]
    rfl
  have hfb : processEditorOutput topic raw =
      ((processEditorOutput topic raw).1, (processEditorOutput topic raw).2) := rfl
  by_cases hpe : pyEqStr (processEditorOutput topic raw).1 (defaultTitle topic) = true
  · have hXd : (processEditorOutput topic raw).1 = Json.str (defaultTitle topic) :=
      (pyEqStr_true_iff _ _).1 hpe
    have hrun := generate_blogRun_okSkip topic env crew raw (processEditorOutput topic raw).2
      hkey hk (by rw [hfb, hXd])
    refine ⟨by rw [hrun, hst], by rw [hrun]; simp, ?_⟩
    unfold generate_blog
    rw [hrun]
    rfl
  · have hpe2 : pyEqStr (processEditorOutput topic raw).1 (defaultTitle topic) = false := by
      simpa using hpe
    have hrun := generate_blogRun_okImage topic env crew raw _ _ hkey hk hfb hpe2
    refine ⟨by rw [hrun, hst], by rw [hrun]; simp, ?_⟩
    unfold generate_blog
    rw [hrun]
    rfl

lemma jsonField_truthy (members : List (String × Json)) (k dflt : String)
    (hd : dflt.data ≠ []) : (jsonField members k dflt).truthy = true := by
  unfold jsonField
  cases lookupLast members k with
  | none => exact truthy_str dflt hd
  | some v =>
    by_cases hv : v.truthy = true
    · simp [hv]
    · simp [hv, truthy_str dflt hd]

/-- Whatever the editor raw output is, both extracted fields are truthy: either a
truthy parsed value or a non-empty default string. -/
lemma processEditorOutput_truthy (topic raw : String) :
    (processEditorOutput topic raw).1.truthy = true ∧
    (processEditorOutput topic raw).2.truthy = true := by
  have hdef : ((Json.str (defaultTitle topic)).truthy = true ∧
      (Json.str defaultBody).truthy = true) :=
    ⟨truthy_str _ (defaultTitle_data_ne topic), truthy_str _ defaultBody_data_ne⟩
  cases h1 : findIdxC '\x7b' raw.data with
  | none =>
    have hpe : processEditorOutput topic raw =
        (Json.str (defaultTitle topic), Json.str defaultBody) := by
      unfold processEditorOutput
      rw [h1]
    rw [hpe]
    exact hdef
  | some s =>
    cases h2 : rfindIdxC '\x7d' raw.data with
    | none =>
      have hpe : processEditorOutput topic raw =
          (Json.str (defaultTitle topic), Json.str defaultBody) := by
        unfold processEditorOutput
        rw [h1, h2]
      rw [hpe]
      exact hdef
    | some e =>
      have hpe : processEditorOutput topic raw =
          (if s < e then
            (match json_loads (String.mk ((raw.data.drop s).take (e + 1 - s))) with
             | some (Json.obj members) =>
               (jsonField members "title" (defaultTitle topic),
                jsonField members "body" defaultBody)
             | _ => (Json.str (defaultTitle topic), Json.str defaultBody))
           else (Json.str (defaultTitle topic), Json.str defaultBody)) := by
        unfold processEditorOutput
        rw [h1, h2]
      rw [hpe]
      by_cases hlt : s < e
      · rw [if_pos hlt]
        cases hj : json_loads (String.mk ((raw.data.drop s).take (e + 1 - s))) with
        | none => exact hdef
        | some j =>
          cases j with
          | obj members =>
            exact ⟨jsonField_truthy members "title" _ (defaultTitle_data_ne topic),
                   jsonField_truthy members "body" _ defaultBody_data_ne⟩
          | null => exact hdef
          | bool b => exact hdef
          | num lex => exact hdef
          | str s2 => exact hdef
          | arr xs => exact hdef
      · rw [if_neg hlt]
        exact hdef

/-- **C10 (amended).** Every non-raising run of generate_blog returns the record
with exactly the fields title, body_markdown and image_url, where title and
body_markdown are always truthy Python values: each is either a truthy parsed
JSON value — which need not be a string — or a non-empty hardcoded default
string; in particular, whenever either field is a string it is non-empty, and
the HTTP layer's .get defaults are never exercised because the keys are always
present. -/
theorem claim10_truthy_fields (topic : String) (env : Env) (crew : CrewBehavior) (r : BlogResult)
    (h : generate_blog topic env crew = Except.ok r) :
    r.title.truthy = true ∧ r.body_markdown.truthy = true := by
  cases hkey : envVarMissing env.openai_api_key with
  | true =>
    unfold generate_blog at h
    rw [generate_blogRun_missingKey topic env crew hkey] at h
    exact Except.noConfusion h
  | false =>
    cases hkick : crew.kickoff with
    | error e =>
      unfold generate_blog at h
      rw [generate_blogRun_kickoffError topic env crew e hkey hkick] at h
      exact Except.noConfusion h
    | ok raw =>
      have htr := processEditorOutput_truthy topic raw
      have hfb : processEditorOutput topic raw =
          ((processEditorOutput topic raw).1, (processEditorOutput topic raw).2) := rfl
      by_cases hpe : pyEqStr (processEditorOutput topic raw).1 (defaultTitle topic) = true
      · have hXd : (processEditorOutput topic raw).1 = Json.str (defaultTitle topic) :=
          (pyEqStr_true_iff _ _).1 hpe
        unfold generate_blog at h
        rw [generate_blogRun_okSkip topic env crew raw (processEditorOutput topic raw).2
            hkey hkick (by rw [hfb, hXd])] at h
        injection h with h2
        rw [← h2]
        exact ⟨truthy_str _ (defaultTitle_data_ne topic), htr.2⟩
      · have hpe2 : pyEqStr (processEditorOutput topic raw).1 (defaultTitle topic) = false := by
          simpa using hpe
        unfold generate_blog at h
        rw [generate_blogRun_okImage topic env crew raw _ _ hkey hkick hfb hpe2] at h
        injection h with h2
        rw [← h2]
        exact ⟨htr.1, htr.2⟩

/-- **C10 (counterexample to the claim as stated).** A successful run whose
editor JSON maps "title" to the JSON value `true` returns a result whose title
is the Python value True — a truthy parsed value that is not a string at all, so
"title and body_markdown are always non-empty strings" fails. -/
theorem claim10_counterexample :
    generate_blog "t" { openai_api_key := some "k", serper_api_key := some "s" }
      { kickoff := Except.ok "\x7b\"title\":true,\"body\":\"Y\"\x7d",
        imageKickoff := Except.ok "u" } =
      Except.ok { title := Json.bool true, body_markdown := Json.str "Y", image_url := none } ∧
    pydanticStr (Json.bool true) = none := ⟨rfl, rfl⟩

/-! ### Witnesses: each claim theorem applied at a concrete input -/

theorem claim1_witness :
    (generate_blog "t" { openai_api_key := some "k", serper_api_key := some "s" }
        { kickoff := Except.ok "See \x7b\"title\":\"T1\",\"body\":\"B1\"\x7d end",
          imageKickoff := Except.ok "u" }).map (fun r => (r.title, r.body_markdown)) =
      Except.ok (Json.str "T1", Json.str "B1") :=
  claim1_wellformed_editor_json "t" "T1" "B1"
    { openai_api_key := some "k", serper_api_key := some "s" }
    { kickoff := Except.ok "See \x7b\"title\":\"T1\",\"body\":\"B1\"\x7d end",
      imageKickoff := Except.ok "u" }
    "See \x7b\"title\":\"T1\",\"body\":\"B1\"\x7d end" "See ".data " end".data
    rfl rfl rfl (by decide) (by decide) (by decide) (by decide) (by decide) (by decide)

theorem claim2_witness :
    generate_blog "t" { openai_api_key := some "k", serper_api_key := some "s" }
      { kickoff := Except.ok "no brackets here", imageKickoff := Except.ok "u" } =
      Except.ok { title := Json.str (defaultTitle "t"), body_markdown := Json.str defaultBody,
                  image_url := none } :=
  claim2_no_bracket_pair "t" { openai_api_key := some "k", serper_api_key := some "s" }
    { kickoff := Except.ok "no brackets here", imageKickoff := Except.ok "u" }
    "no brackets here" rfl rfl (Or.inl rfl)

theorem claim3_witness :
    generate_blog "t" { openai_api_key := some "k", serper_api_key := some "s" }
      { kickoff := Except.ok "\x7b\"body\":\"B1\"\x7d", imageKickoff := Except.ok "u" } =
      Except.ok { title := Json.str (defaultTitle "t"), body_markdown := Json.str "B1",
                  image_url := none } ∧
    (generate_blog "t" { openai_api_key := some "k", serper_api_key := some "s" }
        { kickoff := Except.ok "\x7b\"title\":\"T1\"\x7d", imageKickoff := Except.ok "u" }).map
        (fun r => (r.title, r.body_markdown)) =
      Except.ok (Json.str "T1", Json.str defaultBody) :=
  claim3_partial_recovery "t" "T1" "B1"
    { openai_api_key := some "k", serper_api_key := some "s" }
    { kickoff := Except.ok "\x7b\"body\":\"B1\"\x7d", imageKickoff := Except.ok "u" }
    { kickoff := Except.ok "\x7b\"title\":\"T1\"\x7d", imageKickoff := Except.ok "u" }
    "\x7b\"body\":\"B1\"\x7d" "\x7b\"title\":\"T1\"\x7d" [] [] [] []
    rfl rfl rfl (by decide) (by decide) (by decide) (by decide)
    rfl rfl (by decide) (by decide) (by decide) (by decide)

theorem claim4_witness :
    ((StageCall.imageKickoff ∈
        (generate_blogRun "t" { openai_api_key := some "k", serper_api_key := some "s" }
          { kickoff := Except.ok "\x7b\"title\":\"T1\",\"body\":\"B1\"\x7d",
            imageKickoff := Except.ok "u" }).calls) ↔
      pyEqStr (processEditorOutput "t" "\x7b\"title\":\"T1\",\"body\":\"B1\"\x7d").1
        (defaultTitle "t") = false) ∧
    (pyEqStr (processEditorOutput "t" "\x7b\"title\":\"T1\",\"body\":\"B1\"\x7d").1
        (defaultTitle "t") = true →
      generate_blog "t" { openai_api_key := some "k", serper_api_key := some "s" }
        { kickoff := Except.ok "\x7b\"title\":\"T1\",\"body\":\"B1\"\x7d",
          imageKickoff := Except.ok "u" } =
        Except.ok
          { title := (processEditorOutput "t" "\x7b\"title\":\"T1\",\"body\":\"B1\"\x7d").1,
            body_markdown :=
              (processEditorOutput "t" "\x7b\"title\":\"T1\",\"body\":\"B1\"\x7d").2,
            image_url := none }) :=
  claim4_image_gating "t" { openai_api_key := some "k", serper_api_key := some "s" }
    { kickoff := Except.ok "\x7b\"title\":\"T1\",\"body\":\"B1\"\x7d",
      imageKickoff := Except.ok "u" }
    "\x7b\"title\":\"T1\",\"body\":\"B1\"\x7d" rfl rfl

theorem claim5_witness :
    generate_blog "t" { openai_api_key := some "k", serper_api_key := some "s" }
      { kickoff := Except.ok "\x7b\"title\":\"T1\",\"body\":\"B1\"\x7d",
        imageKickoff := Except.ok " \"https://img.example/x.png\" " } =
      Except.ok
        { title := (processEditorOutput "t" "\x7b\"title\":\"T1\",\"body\":\"B1\"\x7d").1,
          body_markdown :=
            (processEditorOutput "t" "\x7b\"title\":\"T1\",\"body\":\"B1\"\x7d").2,
          image_url := extractImageUrl " \"https://img.example/x.png\" " } ∧
    generate_blog "t" { openai_api_key := some "k", serper_api_key := some "s" }
      { kickoff := Except.ok "\x7b\"title\":\"T1\",\"body\":\"B1\"\x7d",
        imageKickoff := Except.error "boom" } =
      Except.ok
        { title := (processEditorOutput "t" "\x7b\"title\":\"T1\",\"body\":\"B1\"\x7d").1,
          body_markdown :=
            (processEditorOutput "t" "\x7b\"title\":\"T1\",\"body\":\"B1\"\x7d").2,
          image_url := none } ∧
    extractImageUrl "\"https://img.example/x.png\"" = some "https://img.example/x.png" ∧
    extractImageUrl "not a url" = none :=
  claim5_image_url_extraction "t" { openai_api_key := some "k", serper_api_key := some "s" }
    { kickoff := Except.ok "\x7b\"title\":\"T1\",\"body\":\"B1\"\x7d",
      imageKickoff := Except.ok " \"https://img.example/x.png\" " }
    { kickoff := Except.ok "\x7b\"title\":\"T1\",\"body\":\"B1\"\x7d",
      imageKickoff := Except.error "boom" }
    "\x7b\"title\":\"T1\",\"body\":\"B1\"\x7d" " \"https://img.example/x.png\" " "boom"
    rfl rfl rfl rfl rfl rfl

theorem claim6_witness :
    (generate_blogRun "t" { openai_api_key := none, serper_api_key := some "s" }
      { kickoff := Except.ok "x", imageKickoff := Except.ok "u" }).calls = [] ∧
    generate_blog "t" { openai_api_key := none, serper_api_key := some "s" }
      { kickoff := Except.ok "x", imageKickoff := Except.ok "u" } =
      Except.error (PipelineError.environmentError
        "OpenAI API key not found in environment variables.") ∧
    generate_blog_endpoint "t" { openai_api_key := none, serper_api_key := some "s" }
      { kickoff := Except.ok "x", imageKickoff := Except.ok "u" } =
      EndpointResult.httpError 500
        "Server configuration error: OpenAI API key not found in environment variables." ∧
    prefixOfB "Server configuration error: ".data
      "Server configuration error: OpenAI API key not found in environment variables.".data = true ∧
    prefixOfB "Failed to generate blog: ".data
      "Server configuration error: OpenAI API key not found in environment variables.".data = false :=
  claim6_missing_credential "t" { openai_api_key := none, serper_api_key := some "s" }
    { kickoff := Except.ok "x", imageKickoff := Except.ok "u" } rfl

theorem claim7_witness :
    generate_blog "t" { openai_api_key := some "k", serper_api_key := some "s" }
      { kickoff := Except.error "boom", imageKickoff := Except.ok "u" } =
      Except.error (PipelineError.blogGenerationError ("CrewAI pipeline failed: " ++ "boom")) ∧
    generate_blog_endpoint "t" { openai_api_key := some "k", serper_api_key := some "s" }
      { kickoff := Except.error "boom", imageKickoff := Except.ok "u" } =
      EndpointResult.httpError 500
        ("Failed to generate blog: " ++ ("CrewAI pipeline failed: " ++ "boom")) ∧
    (generate_blogRun "t" { openai_api_key := some "k", serper_api_key := some "s" }
      { kickoff := Except.error "boom", imageKickoff := Except.ok "u" }).calls =
      [StageCall.textKickoff] :=
  claim7_pipeline_failure "t" { openai_api_key := some "k", serper_api_key := some "s" }
    { kickoff := Except.error "boom", imageKickoff := Except.ok "u" } "boom" rfl rfl

theorem claim8_witness :
    (generate_blogRun "t" { openai_api_key := some "k", serper_api_key := none }
      { kickoff := Except.ok "x", imageKickoff := Except.ok "u" }).searchTool =
      some SearchTool.duckDuckGo ∧
    StageCall.textKickoff ∈
      (generate_blogRun "t" { openai_api_key := some "k", serper_api_key := none }
        { kickoff := Except.ok "x", imageKickoff := Except.ok "u" }).calls ∧
    (generate_blog "t" { openai_api_key := some "k", serper_api_key := none }
      { kickoff := Except.ok "x", imageKickoff := Except.ok "u" }).isOk = true :=
  claim8_serper_fallback "t" { openai_api_key := some "k", serper_api_key := none }
    { kickoff := Except.ok "x", imageKickoff := Except.ok "u" } "x" rfl rfl rfl

theorem claim9_witness :
    generate_blog "t" { openai_api_key := some "k", serper_api_key := some "s" }
      { kickoff := Except.ok "\x7b\"title\":\"\",\"body\":\"B1\"\x7d",
        imageKickoff := Except.ok "u" } =
      Except.ok { title := Json.str (defaultTitle "t"), body_markdown := Json.str "B1",
                  image_url := none } ∧
    generate_blog "t" { openai_api_key := some "k", serper_api_key := some "s" }
      { kickoff := Except.ok "\x7b\"title\":null,\"body\":\"B1\"\x7d",
        imageKickoff := Except.ok "u" } =
      Except.ok { title := Json.str (defaultTitle "t"), body_markdown := Json.str "B1",
                  image_url := none } ∧
    (generate_blog "t" { openai_api_key := some "k", serper_api_key := some "s" }
        { kickoff := Except.ok "\x7b\"title\":\"T1\",\"body\":\"\"\x7d",
          imageKickoff := Except.ok "u" }).map (fun r => (r.title, r.body_markdown)) =
      Except.ok (Json.str "T1", Json.str defaultBody) ∧
    (generate_blog "t" { openai_api_key := some "k", serper_api_key := some "s" }
        { kickoff := Except.ok "\x7b\"title\":\"T1\",\"body\":null\x7d",
          imageKickoff := Except.ok "u" }).map (fun r => (r.title, r.body_markdown)) =
      Except.ok (Json.str "T1", Json.str defaultBody) :=
  claim9_falsy_value_fallback "t" "T1" "B1"
    { openai_api_key := some "k", serper_api_key := some "s" }
    { kickoff := Except.ok "\x7b\"title\":\"\",\"body\":\"B1\"\x7d",
      imageKickoff := Except.ok "u" }
    { kickoff := Except.ok "\x7b\"title\":null,\"body\":\"B1\"\x7d",
      imageKickoff := Except.ok "u" }
    { kickoff := Except.ok "\x7b\"title\":\"T1\",\"body\":\"\"\x7d",
      imageKickoff := Except.ok "u" }
    { kickoff := Except.ok "\x7b\"title\":\"T1\",\"body\":null\x7d",
      imageKickoff := Except.ok "u" }
    "\x7b\"title\":\"\",\"body\":\"B1\"\x7d" "\x7b\"title\":null,\"body\":\"B1\"\x7d"
    "\x7b\"title\":\"T1\",\"body\":\"\"\x7d" "\x7b\"title\":\"T1\",\"body\":null\x7d"
    [] [] [] [] [] [] [] []
    rfl (by decide) (by decide) (by decide) (by decide)
    rfl (by decide) (by decide) (by decide)
    rfl (by decide) (by decide) (by decide)
    rfl (by decide) (by decide) (by decide)
    rfl (by decide) (by decide) (by decide)

theorem claim10_witness :
    (Json.str (defaultTitle "t")).truthy = true ∧ (Json.str defaultBody).truthy = true :=
  claim10_truthy_fields "t" { openai_api_key := some "k", serper_api_key := some "s" }
    { kickoff := Except.ok "no json", imageKickoff := Except.ok "u" }
    { title := Json.str (defaultTitle "t"), body_markdown := Json.str defaultBody,
      image_url := none }
    rfl
